import Mathlib

/-!
Shallow embedding of the book-management backend (FastAPI + SQLAlchemy).

The store is modelled as three lists of rows (users, books, reviews) plus the
autoincrement counters that primary keys draw from.  Row ids are naturals:
the database assigns them from an increasing counter.  The review `rating`
column is a float in the source; the code never computes with it, it is only
stored and returned, so it is carried here as an opaque integer payload.

The language model behind `generate` is an external binary; every operation
that calls it is parametrised over a function `gen : String → Except String
String` (`.error` models an exception escaping the model call, carrying the
exception text).  Password hashing is likewise external (bcrypt via passlib),
so `register` is parametrised over `hash : String → String`.
-/

namespace BookMgmt

/-- models.py `User`: id (autoincrement primary key), unique username,
hashed password. -/
structure User where
  id : Nat
  username : String
  hashed_password : String
deriving Repr, DecidableEq

/-- models.py `Book`: id (autoincrement primary key), title, author, genre,
year_published, nullable summary. -/
structure Book where
  id : Nat
  title : String
  author : String
  genre : String
  year_published : Int
  summary : Option String
deriving Repr, DecidableEq

/-- models.py `Review`: id (autoincrement primary key), book_id (foreign key
to books.id with ON DELETE CASCADE), user_id, review_text, rating. -/
structure Review where
  id : Nat
  book_id : Nat
  user_id : Int
  review_text : String
  rating : Int
deriving Repr, DecidableEq

/-- schemas.py `UserCreate`: registration request body. -/
structure UserCreate where
  username : String
  password : String
deriving Repr, DecidableEq

/-- schemas.py `UserOut`: registration response (id and username only; the
hash is never returned). -/
structure UserOut where
  id : Nat
  username : String
deriving Repr, DecidableEq

/-- schemas.py `BookCreate`: create request body; `summary` defaults to None. -/
structure BookCreate where
  title : String
  author : String
  genre : String
  year_published : Int
  summary : Option String
deriving Repr, DecidableEq

/-- The payload `book.dict(exclude_unset=True)` extracts in
crud.update_book_data: exactly the fields the request supplied, each one
present or absent.  A present `summary` may itself be null. -/
structure BookPatch where
  title : Option String
  author : Option String
  genre : Option String
  year_published : Option Int
  summary : Option (Option String)
deriving Repr, DecidableEq

/-- schemas.py `ReviewCreate`: review request body.  Note it carries its own
`book_id`, distinct from the path parameter of the route. -/
structure ReviewCreate where
  book_id : Nat
  user_id : Int
  review_text : String
  rating : Int
deriving Repr, DecidableEq

/-- An error surfaced as `HTTPException(status_code, detail)`. -/
structure Err where
  status_code : Nat
  detail : String
deriving Repr, DecidableEq

/-- The relational store: the three tables created at startup, plus the
autoincrement counters. -/
structure Store where
  users : List User
  books : List Book
  reviews : List Review
  nextUserId : Nat
  nextBookId : Nat
  nextReviewId : Nat
deriving Repr, DecidableEq

/-- crud.get_book: `select(Book).where(Book.id == book_id)`, first row or
None. -/
def get_book (s : Store) (book_id : Nat) : Option Book :=
  s.books.find? (fun b => b.id == book_id)

/-- crud.get_books: executes `select(models.Book)` with no offset and no
limit, so the `skip` and `limit` arguments are accepted but unused. -/
def get_books (s : Store) (skip limit : Nat) : List Book :=
  s.books

/-- crud.insert_book_data: builds the row from the request fields, adds it,
commits, refreshes (which assigns the autoincrement id) and returns it. -/
def insert_book_data (s : Store) (book : BookCreate) : Book × Store :=
  let db_book : Book :=
    { id := s.nextBookId, title := book.title, author := book.author,
      genre := book.genre, year_published := book.year_published,
      summary := book.summary }
  (db_book,
   { s with books := s.books ++ [db_book], nextBookId := s.nextBookId + 1 })

/-- The effect of `UPDATE books SET <supplied fields> WHERE id = book_id` on
one row: each supplied field is overwritten, absent fields and the primary
key are kept. -/
def applyPatch (b : Book) (p : BookPatch) : Book :=
  { id := b.id,
    title := p.title.getD b.title,
    author := p.author.getD b.author,
    genre := p.genre.getD b.genre,
    year_published := p.year_published.getD b.year_published,
    summary := p.summary.getD b.summary }

/-- crud.update_book_data: UPDATE with `book.dict(exclude_unset=True)`;
raises 404 when `result.rowcount == 0`; otherwise commits and returns
`get_book` re-read on the updated store. -/
def update_book_data (s : Store) (book_id : Nat) (book : BookPatch) :
    Except Err (Option Book) × Store :=
  let rowcount := (s.books.filter (fun b => b.id == book_id)).length
  if rowcount = 0 then
    (.error { status_code := 404, detail := "Book not found" }, s)
  else
    let s' := { s with
      books := s.books.map (fun b => if b.id == book_id then applyPatch b book else b) }
    (.ok (get_book s' book_id), s')

/-- crud.delete_book_data: select the row, 404 when absent; otherwise DELETE
it and commit.  The schema's `ForeignKey("books.id", ondelete="CASCADE")` on
reviews.book_id removes the dependent review rows with the book. -/
def delete_book_data (s : Store) (book_id : Nat) : Except Err Bool × Store :=
  match get_book s book_id with
  | none => (.error { status_code := 404, detail := "Book not found" }, s)
  | some _ =>
      (.ok true,
       { s with books := s.books.filter (fun b => b.id != book_id),
                reviews := s.reviews.filter (fun r => r.book_id != book_id) })

/-- crud.insert_review_data: builds the row from the request body (including
the body's own book_id), adds, commits, refreshes, returns it.  Committing
enforces the schema's FOREIGN KEY (book_id) REFERENCES books(id) declared in
models.py: when no book carries the body's book_id the store raises an
integrity error, which no handler catches, so it surfaces as a 500 Internal
Server Error with nothing persisted. -/
def insert_review_data (s : Store) (review : ReviewCreate) :
    Except Err (Review × Store) :=
  match get_book s review.book_id with
  | none => .error { status_code := 500, detail := "Internal Server Error" }
  | some _ =>
      let db_review : Review :=
        { id := s.nextReviewId, book_id := review.book_id,
          user_id := review.user_id, review_text := review.review_text,
          rating := review.rating }
      .ok (db_review,
        { s with reviews := s.reviews ++ [db_review],
                 nextReviewId := s.nextReviewId + 1 })

/-- crud.get_review: all reviews whose book_id matches; raises 404
"Review not found" when the result list is empty. -/
def get_review (s : Store) (book_id : Nat) : Except Err (List Review) :=
  let reviews := s.reviews.filter (fun r => r.book_id == book_id)
  if reviews.isEmpty then
    .error { status_code := 404, detail := "Review not found" }
  else
    .ok reviews

/-- main.create_book: builds the summary prompt from title and author, runs
the model on the executor, copies the body with `summary` set to the model
response, inserts the row and returns it; any exception in the block is
converted to a 500 carrying the exception text. -/
def create_book (gen : String → Except String String) (s : Store)
    (book : BookCreate) : Except Err Book × Store :=
  let prompt :=
    "Summarize book title " ++ book.title ++ " by " ++ book.author ++ " in 150 words."
  match gen prompt with
  | .error e => (.error { status_code := 500, detail := e }, s)
  | .ok response =>
      let update_book := { book with summary := some response }
      let (db_book, s') := insert_book_data s update_book
      (.ok db_book, s')

/-- main.read_books: delegates to crud.get_books, forwarding the query
parameters. -/
def read_books (s : Store) (skip limit : Nat) : List Book :=
  get_books s skip limit

/-- main.read_book (GET /books/<x-id>): 404 when crud.get_book finds nothing,
otherwise the row's fields. -/
def read_book (s : Store) (book_id : Nat) : Except Err Book :=
  match get_book s book_id with
  | none => .error { status_code := 404, detail := "Book not found" }
  | some b => .ok b

/-- main.delete_book: checks existence (404), then crud.delete_book_data,
then responds 204 with no content. -/
def delete_book (s : Store) (book_id : Nat) : Except Err Unit × Store :=
  match get_book s book_id with
  | none => (.error { status_code := 404, detail := "Book not found" }, s)
  | some _ =>
      match delete_book_data s book_id with
      | (.ok _, s') => (.ok (), s')
      | (.error e, s') => (.error e, s')

/-- main.create_review_for_book: checks that a book with the PATH id exists
(404 otherwise), then inserts the review built from the BODY, which carries
its own book_id; an integrity error raised by the insert propagates
uncaught. -/
def create_review_for_book (s : Store) (book_id : Nat) (review : ReviewCreate) :
    Except Err Review × Store :=
  match get_book s book_id with
  | none => (.error { status_code := 404, detail := "Book not found" }, s)
  | some _ =>
      match insert_review_data s review with
      | .error e => (.error e, s)
      | .ok (db_review, s') => (.ok db_review, s')

/-- main.read_reviews_for_book: 404 "Book not found" when the book is absent,
otherwise crud.get_review (which itself raises 404 "Review not found" on an
empty result). -/
def read_reviews_for_book (s : Store) (book_id : Nat) : Except Err (List Review) :=
  match get_book s book_id with
  | none => .error { status_code := 404, detail := "Book not found" }
  | some _ => get_review s book_id

/-- auth.register, the body of its `try` block: the duplicate-username check
raises HTTPException(400, "Username already registered") before any insert;
otherwise the new user (with the hashed password) is added, committed,
refreshed and returned. -/
def registerInner (hash : String → String) (s : Store) (user : UserCreate) :
    Except Err UserOut × Store :=
  match s.users.find? (fun u => u.username == user.username) with
  | some _ =>
      (.error { status_code := 400, detail := "Username already registered" }, s)
  | none =>
      let new_user : User :=
        { id := s.nextUserId, username := user.username,
          hashed_password := hash user.password }
      (.ok { id := new_user.id, username := new_user.username },
       { s with users := s.users ++ [new_user], nextUserId := s.nextUserId + 1 })

/-- auth.register as observed at the HTTP boundary: the whole `try` block is
wrapped in `except Exception`, and HTTPException is a subclass of Exception,
so the 400 raised for a duplicate username is caught and re-raised as
HTTPException(500, "Internal server error"). -/
def register (hash : String → String) (s : Store) (user : UserCreate) :
    Except Err UserOut × Store :=
  match registerInner hash s user with
  | (.ok v, s') => (.ok v, s')
  | (.error _, s') =>
      (.error { status_code := 500, detail := "Internal server error" }, s')

/-- main.summarize_with_llamacpp: builds the prompt, runs the model on the
executor and strips the result; any exception degrades to the fixed sentinel
string "Summary generation failed." instead of propagating. -/
def summarize_with_llamacpp (gen : String → Except String String)
    (content : String) : String :=
  match gen ("Summarize the following content:\n" ++ content) with
  | .ok generated => generated.trim
  | .error _ => "Summary generation failed."

/-- main.generate_summary (POST /generate-summary): calls
summarize_with_llamacpp and raises 500 exactly when the result equals the
sentinel string; otherwise returns the summary. -/
def generate_summary (gen : String → Except String String)
    (book_content : String) : Except Err String :=
  let summary := summarize_with_llamacpp gen book_content
  if summary == "Summary generation failed." then
    .error { status_code := 500, detail := "Failed to generate summary." }
  else
    .ok summary

/-- An initial store: empty tables, autoincrement counters at 1 (the state
right after startup table creation). -/
def store0 : Store :=
  { users := [], books := [], reviews := [], nextUserId := 1, nextBookId := 1,
    nextReviewId := 1 }

/-- A sample book row used by concrete instantiations. -/
def bookA : Book :=
  { id := 1, title := "Dune", author := "Herbert", genre := "SF",
    year_published := 1965, summary := some "A desert planet." }

/-- A store holding the single book `bookA`. -/
def storeB : Store :=
  { users := [], books := [bookA], reviews := [], nextUserId := 1,
    nextBookId := 2, nextReviewId := 1 }

/-- A store holding `bookA` and two review rows, one for book 1 and one for
book 2. -/
def storeBR : Store :=
  { users := [], books := [bookA],
    reviews := [{ id := 1, book_id := 1, user_id := 7, review_text := "good",
                  rating := 5 },
                { id := 2, book_id := 2, user_id := 8, review_text := "stale",
                  rating := 1 }],
    nextUserId := 1, nextBookId := 2, nextReviewId := 3 }

/-- A second sample book row. -/
def bookB : Book :=
  { id := 2, title := "Emma", author := "Austen", genre := "Novel",
    year_published := 1815, summary := some "A novel of manners." }

/-- A store holding the two books `bookA` (id 1) and `bookB` (id 2). -/
def storeB2 : Store :=
  { users := [], books := [bookA, bookB], reviews := [], nextUserId := 1,
    nextBookId := 3, nextReviewId := 1 }

/-- A partial update request carrying only a new title. -/
def patchX : BookPatch :=
  { title := some "X", author := none, genre := none, year_published := none,
    summary := none }

/-- C1: the claim says a duplicate registration fails with DuplicateIdentity
(HTTP 400) and inserts no second row.  The code's own docstring promises the
400, but the blanket `except Exception` in auth.register also catches that
HTTPException, so at the failing input below the call actually fails with
500 "Internal server error".  The user table is indeed left unchanged. -/
theorem register_duplicate_returns_500 :
    register (fun p => String.append "h" p)
      { users := [{ id := 1, username := "alice", hashed_password := "ha" }],
        books := [], reviews := [], nextUserId := 2, nextBookId := 1,
        nextReviewId := 1 }
      { username := "alice", password := "other" }
      = (.error { status_code := 500, detail := "Internal server error" },
         { users := [{ id := 1, username := "alice", hashed_password := "ha" }],
           books := [], reviews := [], nextUserId := 2, nextBookId := 1,
           nextReviewId := 1 }) := by
  rfl

/-- C2: createReview against a nonexistent path book id fails with 404
NotFound and leaves the store unchanged (the handler checks existence before
any insert, so no review row is written on the error path). -/
theorem create_review_nonexistent_book_not_found (s : Store) (book_id : Nat)
    (review : ReviewCreate) (h : get_book s book_id = none) :
    create_review_for_book s book_id review
      = (.error { status_code := 404, detail := "Book not found" }, s) := by
  unfold create_review_for_book
  rw [h]

theorem create_review_nonexistent_book_not_found_witness :
    get_book store0 5 = none ∧
      create_review_for_book store0 5
          { book_id := 5, user_id := 7, review_text := "nice", rating := 4 }
        = (.error { status_code := 404, detail := "Book not found" }, store0) :=
  ⟨rfl, create_review_nonexistent_book_not_found store0 5 _ rfl⟩

/-- C4: listBooks returns every book row in the store; the skip and limit
arguments do not affect the result. -/
theorem read_books_ignores_window (s : Store) (skip limit skip' limit' : Nat) :
    read_books s skip limit = s.books ∧
      read_books s skip limit = read_books s skip' limit' :=
  ⟨rfl, rfl⟩

/-- C8: summarize_with_llamacpp degrades any model failure to the sentinel
string "Summary generation failed.", and the generate-summary endpoint fails
with an internal error (HTTP 500) exactly when summarize returns that
sentinel, returning the summary otherwise. -/
theorem generate_summary_sentinel_protocol (gen : String → Except String String)
    (content : String) :
    (∀ e, gen ("Summarize the following content:\n" ++ content) = .error e →
        summarize_with_llamacpp gen content = "Summary generation failed.") ∧
    (generate_summary gen content
        = .error { status_code := 500, detail := "Failed to generate summary." }
      ↔ summarize_with_llamacpp gen content = "Summary generation failed.") ∧
    (summarize_with_llamacpp gen content ≠ "Summary generation failed." →
      generate_summary gen content = .ok (summarize_with_llamacpp gen content)) := by
  refine ⟨?_, ?_, ?_⟩
  · intro e he
    unfold summarize_with_llamacpp
    rw [he]
  · unfold generate_summary
    by_cases h : summarize_with_llamacpp gen content = "Summary generation failed."
    · simp [h]
    · simp [h]
  · intro h
    unfold generate_summary
    simp [h]

theorem generate_summary_sentinel_protocol_witness :
    summarize_with_llamacpp (fun _ => .error "boom") "some content"
        = "Summary generation failed." ∧
      generate_summary (fun _ => .error "boom") "some content"
        = .error { status_code := 500, detail := "Failed to generate summary." } := by
  have h := generate_summary_sentinel_protocol (fun _ => .error "boom") "some content"
  exact ⟨h.1 "boom" rfl, h.2.1.mpr (h.1 "boom" rfl)⟩

/-- C5 counterexample: with a model run returning the empty string, the book
is created successfully and its non-summary fields equal the input, but its
summary is the empty string — refuting "summary is a non-empty string". -/
theorem create_book_empty_summary_counterexample :
    (create_book (fun _ => Except.ok "") store0
        { title := "Dune", author := "Herbert", genre := "SF",
          year_published := 1965, summary := none }).1
      = Except.ok { id := 1, title := "Dune", author := "Herbert", genre := "SF",
                    year_published := 1965, summary := some "" } := by
  rfl

/-- C5 (amended): for all inputs, when the model call returns a string, a
successful createBook yields a record whose title, author, genre and
year_published equal the input and whose summary is exactly the model
response; the summary is non-empty whenever the model output is, but
non-emptiness itself is not enforced by the code. -/
theorem create_book_fields_equal_input (gen : String → Except String String)
    (s : Store) (book : BookCreate) (response : String)
    (h : gen ("Summarize book title " ++ book.title ++ " by " ++ book.author
        ++ " in 150 words.") = .ok response) :
    ∃ r s', create_book gen s book = (.ok r, s') ∧
      r.title = book.title ∧ r.author = book.author ∧ r.genre = book.genre ∧
      r.year_published = book.year_published ∧ r.summary = some response ∧
      (response ≠ "" → r.summary ≠ some "") := by
  refine ⟨{ id := s.nextBookId, title := book.title, author := book.author,
            genre := book.genre, year_published := book.year_published,
            summary := some response },
          { s with
            books := s.books ++
              [{ id := s.nextBookId, title := book.title, author := book.author,
                 genre := book.genre, year_published := book.year_published,
                 summary := some response }],
            nextBookId := s.nextBookId + 1 },
          ?_, rfl, rfl, rfl, rfl, rfl, ?_⟩
  · simp only [create_book, insert_book_data]
    rw [h]
  · intro hne hsum
    exact hne (Option.some.inj hsum)

theorem create_book_fields_equal_input_witness :
    ∃ r s', create_book (fun _ => Except.ok "A classic of SF.") store0
        { title := "Dune", author := "Herbert", genre := "SF",
          year_published := 1965, summary := none } = (.ok r, s') ∧
      r.title = "Dune" ∧ r.author = "Herbert" ∧ r.genre = "SF" ∧
      r.year_published = 1965 ∧ r.summary = some "A classic of SF." ∧
      ("A classic of SF." ≠ "" → r.summary ≠ some "") :=
  create_book_fields_equal_input (fun _ => Except.ok "A classic of SF.") store0
    { title := "Dune", author := "Herbert", genre := "SF",
      year_published := 1965, summary := none } "A classic of SF." rfl

/-- A lookup that misses makes the read_book handler answer 404. -/
theorem read_book_eq_none (s : Store) (book_id : Nat)
    (h : get_book s book_id = none) :
    read_book s book_id
      = .error { status_code := 404, detail := "Book not found" } := by
  unfold read_book
  rw [h]

/-- A lookup that hits makes the read_book handler answer the row. -/
theorem read_book_found (s : Store) (book_id : Nat) (b : Book)
    (h : get_book s book_id = some b) : read_book s book_id = .ok b := by
  unfold read_book
  rw [h]

/-- C6: after deleteBook succeeds on a present id, getBook of that id fails
with 404 NotFound, no review row with that book_id remains (the cascade
removes dependent reviews), and reviews of other books survive. -/
theorem delete_book_then_get_not_found (s : Store) (book_id : Nat)
    (h : get_book s book_id ≠ none) :
    ∃ s', delete_book s book_id = (.ok (), s') ∧
      read_book s' book_id
        = .error { status_code := 404, detail := "Book not found" } ∧
      (∀ r ∈ s'.reviews, r.book_id ≠ book_id) ∧
      (∀ r ∈ s.reviews, r.book_id ≠ book_id → r ∈ s'.reviews) := by
  obtain ⟨b, hb⟩ := Option.ne_none_iff_exists'.mp h
  refine ⟨{ s with
            books := s.books.filter (fun x => x.id != book_id),
            reviews := s.reviews.filter (fun r => r.book_id != book_id) },
          ?_, ?_, ?_, ?_⟩
  · unfold delete_book delete_book_data
    rw [hb]
  · apply read_book_eq_none
    show (s.books.filter (fun x => x.id != book_id)).find?
        (fun x => x.id == book_id) = none
    rw [List.find?_eq_none]
    intro x hx
    have hmem := List.mem_filter.mp hx
    simp only [bne_iff_ne] at hmem
    simp [hmem.2]
  · intro r hr
    have hmem := List.mem_filter.mp hr
    exact bne_iff_ne.mp hmem.2
  · intro r hr hne
    exact List.mem_filter.mpr ⟨hr, bne_iff_ne.mpr hne⟩

theorem delete_book_then_get_not_found_witness :
    get_book storeBR 1 ≠ none ∧
      ∃ s', delete_book storeBR 1 = (.ok (), s') ∧
        read_book s' 1
          = .error { status_code := 404, detail := "Book not found" } ∧
        (∀ r ∈ s'.reviews, r.book_id ≠ 1) ∧
        (∀ r ∈ storeBR.reviews, r.book_id ≠ 1 → r ∈ s'.reviews) :=
  ⟨by decide, delete_book_then_get_not_found storeBR 1 (by decide)⟩

/-- Looking up a fresh id after appending a row carrying it finds exactly the
appended row. -/
theorem find_fresh_id_append (l : List Book) (b : Book) (target : Nat)
    (hl : ∀ x ∈ l, x.id ≠ target) (hb : b.id = target) :
    (l ++ [b]).find? (fun x => x.id == target) = some b := by
  rw [List.find?_append]
  have hnone : l.find? (fun x => x.id == target) = none := by
    rw [List.find?_eq_none]
    intro x hx
    simp [hl x hx]
  rw [hnone]
  simp [List.find?, hb]

/-- C7: when the next autoincrement id is fresh (no stored row carries it —
the database invariant), a createBook call that succeeds returning record r
and post-store s' makes an immediate getBook of r's id return that same
record. -/
theorem get_book_after_create_book (gen : String → Except String String)
    (s : Store) (book : BookCreate) (r : Book) (s' : Store)
    (hfresh : ∀ b ∈ s.books, b.id ≠ s.nextBookId)
    (hc : create_book gen s book = (.ok r, s')) :
    read_book s' r.id = .ok r := by
  cases hg : gen ("Summarize book title " ++ book.title ++ " by "
      ++ book.author ++ " in 150 words.") with
  | error e =>
      simp only [create_book, insert_book_data, hg, Prod.mk.injEq] at hc
      exact absurd hc.1 (by simp)
  | ok response =>
      simp only [create_book, insert_book_data, hg, Prod.mk.injEq,
        Except.ok.injEq] at hc
      obtain ⟨hr, hs⟩ := hc
      subst hr
      subst hs
      apply read_book_found
      show (s.books ++
          ([{ id := s.nextBookId, title := book.title, author := book.author,
              genre := book.genre, year_published := book.year_published,
              summary := some response }] : List Book)).find?
          (fun x => x.id == s.nextBookId)
        = some { id := s.nextBookId, title := book.title, author := book.author,
                 genre := book.genre, year_published := book.year_published,
                 summary := some response }
      exact find_fresh_id_append s.books _ s.nextBookId hfresh rfl

theorem get_book_after_create_book_witness :
    (∀ b ∈ storeB.books, b.id ≠ storeB.nextBookId) ∧
      read_book { users := [], books := [bookA,
                    { id := 2, title := "Emma", author := "Austen",
                      genre := "Novel", year_published := 1815,
                      summary := some "Second book." }],
                  reviews := [], nextUserId := 1, nextBookId := 3,
                  nextReviewId := 1 } 2
        = .ok { id := 2, title := "Emma", author := "Austen", genre := "Novel",
                year_published := 1815, summary := some "Second book." } :=
  ⟨by decide,
   get_book_after_create_book (fun _ => Except.ok "Second book.") storeB
     { title := "Emma", author := "Austen", genre := "Novel",
       year_published := 1815, summary := none }
     { id := 2, title := "Emma", author := "Austen", genre := "Novel",
       year_published := 1815, summary := some "Second book." }
     { users := [], books := [bookA,
         { id := 2, title := "Emma", author := "Austen", genre := "Novel",
           year_published := 1815, summary := some "Second book." }],
       reviews := [], nextUserId := 1, nextBookId := 3, nextReviewId := 1 }
     (by decide) rfl⟩

/-- C3: updating a present book id succeeds, rewrites exactly the rows whose
id matches by overwriting only the fields present in the patch, keeps all
other rows and the other tables as previously stored, and returns the
re-read updated row. -/
theorem update_book_changes_only_patched_fields (s : Store) (book_id : Nat)
    (p : BookPatch) (h : ∃ b ∈ s.books, b.id = book_id) :
    ∃ s', update_book_data s book_id p = (.ok (get_book s' book_id), s') ∧
      s'.users = s.users ∧ s'.reviews = s.reviews ∧
      s'.books = s.books.map
        (fun b => if b.id == book_id then applyPatch b p else b) ∧
      (∀ b ∈ s.books, b.id ≠ book_id → b ∈ s'.books) ∧
      (∀ b, (applyPatch b p).id = b.id ∧
        (p.title = none → (applyPatch b p).title = b.title) ∧
        (p.author = none → (applyPatch b p).author = b.author) ∧
        (p.genre = none → (applyPatch b p).genre = b.genre) ∧
        (p.year_published = none →
          (applyPatch b p).year_published = b.year_published) ∧
        (p.summary = none → (applyPatch b p).summary = b.summary) ∧
        (∀ v, p.title = some v → (applyPatch b p).title = v) ∧
        (∀ v, p.author = some v → (applyPatch b p).author = v) ∧
        (∀ v, p.genre = some v → (applyPatch b p).genre = v) ∧
        (∀ v, p.year_published = some v →
          (applyPatch b p).year_published = v) ∧
        (∀ v, p.summary = some v → (applyPatch b p).summary = v)) := by
  obtain ⟨b, hb, hid⟩ := h
  have hmem : b ∈ s.books.filter (fun x => x.id == book_id) :=
    List.mem_filter.mpr ⟨hb, by simp [hid]⟩
  have hlen : ¬((s.books.filter (fun x => x.id == book_id)).length = 0) := by
    intro h0
    rw [List.length_eq_zero] at h0
    rw [h0] at hmem
    exact List.not_mem_nil b hmem
  refine ⟨{ s with
            books := s.books.map
              (fun x => if x.id == book_id then applyPatch x p else x) },
          ?_, rfl, rfl, rfl, ?_, ?_⟩
  · simp only [update_book_data]
    rw [if_neg hlen]
  · intro x hx hne
    show x ∈ s.books.map (fun y => if y.id == book_id then applyPatch y p else y)
    refine List.mem_map.mpr ⟨x, hx, ?_⟩
    simp [hne]
  · intro x
    refine ⟨rfl, fun hv => by simp [applyPatch, hv],
            fun hv => by simp [applyPatch, hv],
            fun hv => by simp [applyPatch, hv],
            fun hv => by simp [applyPatch, hv],
            fun hv => by simp [applyPatch, hv],
            fun v hv => by simp [applyPatch, hv],
            fun v hv => by simp [applyPatch, hv],
            fun v hv => by simp [applyPatch, hv],
            fun v hv => by simp [applyPatch, hv],
            fun v hv => by simp [applyPatch, hv]⟩

theorem update_book_changes_only_patched_fields_witness :
    (∃ b ∈ storeB.books, b.id = 1) ∧
      ∃ s', update_book_data storeB 1 patchX = (.ok (get_book s' 1), s') ∧
        s'.users = storeB.users ∧ s'.reviews = storeB.reviews ∧
        s'.books = storeB.books.map
          (fun b => if b.id == 1 then applyPatch b patchX else b) ∧
        (∀ b ∈ storeB.books, b.id ≠ 1 → b ∈ s'.books) ∧
        (∀ b, (applyPatch b patchX).id = b.id ∧
          (patchX.title = none → (applyPatch b patchX).title = b.title) ∧
          (patchX.author = none → (applyPatch b patchX).author = b.author) ∧
          (patchX.genre = none → (applyPatch b patchX).genre = b.genre) ∧
          (patchX.year_published = none →
            (applyPatch b patchX).year_published = b.year_published) ∧
          (patchX.summary = none → (applyPatch b patchX).summary = b.summary) ∧
          (∀ v, patchX.title = some v → (applyPatch b patchX).title = v) ∧
          (∀ v, patchX.author = some v → (applyPatch b patchX).author = v) ∧
          (∀ v, patchX.genre = some v → (applyPatch b patchX).genre = v) ∧
          (∀ v, patchX.year_published = some v →
            (applyPatch b patchX).year_published = v) ∧
          (∀ v, patchX.summary = some v → (applyPatch b patchX).summary = v)) :=
  ⟨by decide, update_book_changes_only_patched_fields storeB 1 patchX (by decide)⟩

/-- C9: listReviews answers 404 when the book is absent, 404 when the book
exists but has zero reviews, and otherwise exactly the non-empty list of
that book's reviews; an empty list is never returned. -/
theorem read_reviews_for_book_cases (s : Store) (book_id : Nat) :
    (get_book s book_id = none →
        read_reviews_for_book s book_id
          = .error { status_code := 404, detail := "Book not found" }) ∧
    (get_book s book_id ≠ none →
      s.reviews.filter (fun r => r.book_id == book_id) = [] →
        read_reviews_for_book s book_id
          = .error { status_code := 404, detail := "Review not found" }) ∧
    (get_book s book_id ≠ none →
      s.reviews.filter (fun r => r.book_id == book_id) ≠ [] →
        read_reviews_for_book s book_id
          = .ok (s.reviews.filter (fun r => r.book_id == book_id)) ∧
        (∀ r ∈ s.reviews.filter (fun r => r.book_id == book_id),
          r.book_id = book_id)) ∧
    (∀ l, read_reviews_for_book s book_id = .ok l → l ≠ []) := by
  refine ⟨?_, ?_, ?_, ?_⟩
  · intro h
    unfold read_reviews_for_book
    rw [h]
  · intro h hfil
    obtain ⟨b, hb⟩ := Option.ne_none_iff_exists'.mp h
    unfold read_reviews_for_book
    rw [hb]
    unfold get_review
    simp [hfil]
  · intro h hfil
    obtain ⟨b, hb⟩ := Option.ne_none_iff_exists'.mp h
    refine ⟨?_, ?_⟩
    · unfold read_reviews_for_book
      rw [hb]
      unfold get_review
      simp [hfil]
    · intro r hr
      have hm := List.mem_filter.mp hr
      exact beq_iff_eq.mp hm.2
  · intro l hl
    unfold read_reviews_for_book at hl
    cases hget : get_book s book_id with
    | none =>
        rw [hget] at hl
        exact Except.noConfusion hl
    | some b =>
        rw [hget] at hl
        unfold get_review at hl
        by_cases hemp : (s.reviews.filter (fun r => r.book_id == book_id)).isEmpty
        · rw [if_pos hemp] at hl
          exact Except.noConfusion hl
        · rw [if_neg hemp] at hl
          have hfl := Except.ok.inj hl
          rw [← hfl]
          intro hnil
          exact hemp (List.isEmpty_iff.mpr hnil)

theorem read_reviews_for_book_cases_witness :
    read_reviews_for_book store0 7
        = .error { status_code := 404, detail := "Book not found" } ∧
      read_reviews_for_book storeB 1
        = .error { status_code := 404, detail := "Review not found" } ∧
      read_reviews_for_book storeBR 1
        = .ok (storeBR.reviews.filter (fun r => r.book_id == 1)) :=
  ⟨(read_reviews_for_book_cases store0 7).1 rfl,
   (read_reviews_for_book_cases storeB 1).2.1 (by decide) rfl,
   ((read_reviews_for_book_cases storeBR 1).2.2.1 (by decide) (by decide)).1⟩

/-- C10 counterexample: under the schema-declared foreign key on
reviews.book_id, a body naming a nonexistent book (99) makes the insert fail
with an integrity error — surfaced as a 500 — even though the path book (1)
exists, and nothing is persisted; the claim instead asserted a successful
insert whose stored row references the nonexistent book. -/
theorem create_review_nonexistent_body_book_counterexample :
    create_review_for_book storeB 1
        { book_id := 99, user_id := 7, review_text := "odd", rating := 2 }
      = (.error { status_code := 500, detail := "Internal Server Error" },
         storeB) := by
  rfl

/-- C10 (amended): with the path book id present, only the path id is
checked by the handler; the persisted review carries the BODY's book_id, so
it may reference a different existing book than the path names, appended to
the review table with all other tables untouched — while a body book_id
referencing no book makes the insert fail with an integrity error (500) and
nothing persisted. -/
theorem create_review_uses_body_book_id (s : Store) (book_id : Nat)
    (review : ReviewCreate) (h : get_book s book_id ≠ none) :
    (get_book s review.book_id = none →
        create_review_for_book s book_id review
          = (.error { status_code := 500, detail := "Internal Server Error" },
             s)) ∧
    (get_book s review.book_id ≠ none →
      ∃ r s', create_review_for_book s book_id review = (.ok r, s') ∧
        r.book_id = review.book_id ∧ r.user_id = review.user_id ∧
        r.review_text = review.review_text ∧ r.rating = review.rating ∧
        s'.reviews = s.reviews ++ [r] ∧ s'.books = s.books ∧
        s'.users = s.users) := by
  obtain ⟨b, hb⟩ := Option.ne_none_iff_exists'.mp h
  constructor
  · intro hnone
    unfold create_review_for_book insert_review_data
    rw [hb, hnone]
  · intro hsome
    obtain ⟨b2, hb2⟩ := Option.ne_none_iff_exists'.mp hsome
    refine ⟨{ id := s.nextReviewId, book_id := review.book_id,
              user_id := review.user_id, review_text := review.review_text,
              rating := review.rating },
            { s with
              reviews := s.reviews ++
                [{ id := s.nextReviewId, book_id := review.book_id,
                   user_id := review.user_id,
                   review_text := review.review_text,
                   rating := review.rating }],
              nextReviewId := s.nextReviewId + 1 },
            ?_, rfl, rfl, rfl, rfl, rfl, rfl, rfl⟩
    unfold create_review_for_book insert_review_data
    rw [hb, hb2]

theorem create_review_uses_body_book_id_witness :
    get_book storeB2 1 ≠ none ∧ get_book storeB2 2 ≠ none ∧
      ∃ r s', create_review_for_book storeB2 1
          { book_id := 2, user_id := 7, review_text := "great", rating := 5 }
          = (.ok r, s') ∧
        r.book_id = 2 ∧ r.user_id = 7 ∧ r.review_text = "great" ∧
        r.rating = 5 ∧ s'.reviews = storeB2.reviews ++ [r] ∧
        s'.books = storeB2.books ∧ s'.users = storeB2.users :=
  ⟨by decide, by decide,
   (create_review_uses_body_book_id storeB2 1
      { book_id := 2, user_id := 7, review_text := "great", rating := 5 }
      (by decide)).2 (by decide)⟩

end BookMgmt
